import Mathlib

/-!
# Verification of `supervisor/host/manager.py` (`HostManager`)

Shallow embedding of the host-management orchestration layer:

* the capability resolver `supported_features` (with its `lru_cache`
  memoization, modelled as an explicit cache cell plus an evaluation
  counter),
* the reload orchestrator `reload`,
* the startup sequencer `load`,
* the hardware hot-plug handler `_hardware_events`.

External collaborators (D-Bus adapters, the sound/service/network/info
controllers, the AppArmor loader, the hardware policy matcher) are modelled
by their observable interface: connection probes are booleans, each
`update()` either succeeds or raises its subsystem-specific error, and every
invocation is recorded in an explicit call trace so that "this refresh was
(not) invoked" is a provable statement.

Python exceptions are modelled as an explicit error component
(`ManagerState × Option HostError`): side effects performed before a raise
persist in the returned state, exactly as in Python.
-/

set_option autoImplicit false

namespace Supervisor

/-- The host feature flags of `supervisor/host/const.py` (`HostFeature`),
in the names used by `manager.py`. -/
inductive HostFeature where
  | REBOOT
  | SHUTDOWN
  | SERVICES
  | NETWORK
  | HOSTNAME
  | TIMEDATE
  | OS_AGENT
  | HAOS
  deriving DecidableEq, Repr

/-- Modelled from the spec: the subsystem-specific error raised by each
external collaborator's `update()` / `load()` (the controllers live outside
`src/`; §6 of the spec says each "may fail with a subsystem-specific
error"). `pulseAudio` is the `PulseAudioError` that `reload` suppresses;
`apparmor` is the domain error of the security-profile loader. -/
inductive HostError where
  | hostInfo
  | services
  | network
  | agent
  | pulseAudio
  | apparmor
  deriving DecidableEq, Repr

/-- Whether an error is a `PulseAudioError` — the class caught by
`with suppress(PulseAudioError)` in `HostManager.reload`. -/
def HostError.isPulseAudioError : HostError → Bool
  | .pulseAudio => true
  | _ => false

/-- Modelled from the spec: whether an error is a `HassioError` — the class
caught by `with suppress(HassioError)` and `except HassioError` in
`HostManager.load`. The exception hierarchy lives outside `src/`; per the
spec (§7) every subsystem failure surfaced here is a domain error, so every
modelled error is a `HassioError`. -/
def HostError.isHassioError : HostError → Bool
  | .hostInfo => true
  | .services => true
  | .network => true
  | .agent => true
  | .pulseAudio => true
  | .apparmor => true

/-- Probe of the systemd D-Bus adapter (`self.sys_dbus.systemd`). -/
structure SystemdBus where
  is_connected : Bool
  deriving DecidableEq, Repr

/-- Probe of the NetworkManager D-Bus adapter (`self.sys_dbus.network`):
connection flag plus the currently known interfaces (Python truthiness of
`interfaces` is emptiness of the sequence). -/
structure NetworkBus where
  is_connected : Bool
  interfaces : List String
  deriving DecidableEq, Repr

/-- Probe of the hostname D-Bus adapter (`self.sys_dbus.hostname`). -/
structure HostnameBus where
  is_connected : Bool
  deriving DecidableEq, Repr

/-- Probe of the timedate D-Bus adapter (`self.sys_dbus.timedate`). -/
structure TimedateBus where
  is_connected : Bool
  deriving DecidableEq, Repr

/-- Probe of the OS-Agent D-Bus adapter (`self.sys_dbus.agent`). -/
structure AgentBus where
  is_connected : Bool
  deriving DecidableEq, Repr

/-- The D-Bus probe snapshot read through `self.sys_dbus`. -/
structure DBusManager where
  systemd : SystemdBus
  network : NetworkBus
  hostname : HostnameBus
  timedate : TimedateBus
  agent : AgentBus
  deriving DecidableEq, Repr

/-- The OS detector (`self.sys_os.available`). -/
structure OSManager where
  available : Bool
  deriving DecidableEq, Repr

/-- The body of `HostManager.supported_features`: a pure function of the
probe snapshot, building the feature list in the fixed source order. -/
def supported_features (d : DBusManager) (os : OSManager) : List HostFeature :=
  (if d.systemd.is_connected then
    [HostFeature.REBOOT, HostFeature.SHUTDOWN, HostFeature.SERVICES]
  else []) ++
  (if d.network.is_connected && !d.network.interfaces.isEmpty then
    [HostFeature.NETWORK]
  else []) ++
  (if d.hostname.is_connected then [HostFeature.HOSTNAME] else []) ++
  (if d.timedate.is_connected then [HostFeature.TIMEDATE] else []) ++
  (if d.agent.is_connected then [HostFeature.OS_AGENT] else []) ++
  (if os.available then [HostFeature.HAOS] else [])

/-- Call trace of the external collaborators: how often each refresh /
registration has been invoked. This is the observable against which
"the refresh operation is never invoked" is stated. -/
structure Trace where
  info_updates : Nat
  services_updates : Nat
  network_updates : Nat
  agent_updates : Nat
  sound_updates : Nat
  apparmor_loads : Nat
  register_new : Nat
  register_remove : Nat
  deriving DecidableEq, Repr

/-- Mutable state of a `HostManager`: the `lru_cache` memoization cell of
`supported_features` (`some` = valid entry, `none` = invalidated/empty),
a counter of how often the feature predicates were actually evaluated
(observable via call counting in tests), and the collaborator call trace. -/
structure ManagerState where
  cache : Option (List HostFeature)
  featureEvals : Nat
  trace : Trace
  deriving DecidableEq, Repr

/-- `HostManager.supported_features` as called: the `@lru_cache` wrapper.
On a hit the cached list is returned and nothing is evaluated; on a miss
the body runs (the evaluation counter increases) and the cell is filled. -/
def supported_features_cached (d : DBusManager) (os : OSManager)
    (s : ManagerState) : List HostFeature × ManagerState :=
  match s.cache with
  | some fs => (fs, s)
  | none =>
    let fs := supported_features d os
    (fs, { s with cache := some fs, featureEvals := s.featureEvals + 1 })

/-- The `features` property: returns `self.supported_features()`. -/
def features (d : DBusManager) (os : OSManager) (s : ManagerState) :
    List HostFeature × ManagerState :=
  supported_features_cached d os s

/-- `self.supported_features.cache_clear()`. -/
def cache_clear (s : ManagerState) : ManagerState :=
  { s with cache := none }

/-- Failure behaviour of the external collaborators during one run: whether
each `update()` / `load()` call would raise (its subsystem-specific error)
if invoked. -/
structure UpdateBehavior where
  info_fails : Bool
  services_fails : Bool
  network_fails : Bool
  agent_fails : Bool
  sound_fails : Bool
  apparmor_fails : Bool
  deriving DecidableEq, Repr

/-- One invocation of an external `update()` / `load()`: the invocation is
recorded in the trace (the side effect persists even on a raise, as in
Python), then the call either succeeds or raises `err`. -/
def ext_update (fails : Bool) (err : HostError) (inc : Trace → Trace)
    (s : ManagerState) : ManagerState × Option HostError :=
  ({ s with trace := inc s.trace }, if fails then some err else none)

/-- Sequencing with exception propagation: if the first action raised, the
continuation does not run and the error escapes with the state as it was at
the raise point. -/
def and_then (r : ManagerState × Option HostError)
    (k : ManagerState → ManagerState × Option HostError) :
    ManagerState × Option HostError :=
  match r with
  | (s, some e) => (s, some e)
  | (s, none) => k s

/-- `HostManager.reload`: refresh host info, then — each guarded by its
connection probe — the service list, network state and OS-Agent; then the
sound state under `suppress(PulseAudioError)`; finally
`supported_features.cache_clear()`. Errors escaping any step abort the
remaining steps. -/
def reload (d : DBusManager) (beh : UpdateBehavior) (s : ManagerState) :
    ManagerState × Option HostError :=
  and_then (ext_update beh.info_fails HostError.hostInfo
      (fun t => { t with info_updates := t.info_updates + 1 }) s) fun s =>
  and_then (if d.systemd.is_connected then
      ext_update beh.services_fails HostError.services
        (fun t => { t with services_updates := t.services_updates + 1 }) s
    else (s, none)) fun s =>
  and_then (if d.network.is_connected then
      ext_update beh.network_fails HostError.network
        (fun t => { t with network_updates := t.network_updates + 1 }) s
    else (s, none)) fun s =>
  and_then (if d.agent.is_connected then
      ext_update beh.agent_fails HostError.agent
        (fun t => { t with agent_updates := t.agent_updates + 1 }) s
    else (s, none)) fun s =>
  match ext_update beh.sound_fails HostError.pulseAudio
      (fun t => { t with sound_updates := t.sound_updates + 1 }) s with
  | (s, some e) =>
    if e.isPulseAudioError then (cache_clear s, none) else (s, some e)
  | (s, none) => (cache_clear s, none)

/-- The two `self.sys_bus.register_event(...)` calls of `HostManager.load`:
register `_hardware_events` for `HARDWARE_NEW_DEVICE` and
`HARDWARE_REMOVE_DEVICE`. -/
def register_hardware_events (s : ManagerState) : ManagerState :=
  let s := { s with trace :=
    { s.trace with register_new := s.trace.register_new + 1 } }
  { s with trace :=
    { s.trace with register_remove := s.trace.register_remove + 1 } }

/-- Everything in `HostManager.load` after the suppressed `reload` call:
register the two hardware event handlers, then `await self.apparmor.load()`
with `except HassioError` around it (logged, not re-raised). -/
def load_after_reload (beh : UpdateBehavior) (s : ManagerState) :
    ManagerState × Option HostError :=
  let s := register_hardware_events s
  match ext_update beh.apparmor_fails HostError.apparmor
      (fun t => { t with apparmor_loads := t.apparmor_loads + 1 }) s with
  | (s, some e) => if e.isHassioError then (s, none) else (s, some e)
  | (s, none) => (s, none)

/-- `HostManager.load`: run `reload` under `suppress(HassioError)`, then
the registrations and the guarded AppArmor load. -/
def load (d : DBusManager) (beh : UpdateBehavior) (s : ManagerState) :
    ManagerState × Option HostError :=
  match reload d beh s with
  | (s, some e) =>
    if e.isHassioError then load_after_reload beh s else (s, some e)
  | (s, none) => load_after_reload beh s

/-- The hardware policy groups of `supervisor/hardware/const.py` used for
hot-plug classification (only `AUDIO` is consulted by `manager.py`). -/
inductive PolicyGroup where
  | AUDIO
  | UART
  | USB
  | VIDEO
  deriving DecidableEq, Repr

/-- A hardware device record: opaque identifier; classification is done by
the external policy matcher, never by this core. -/
structure Device where
  name : String
  deriving DecidableEq, Repr

/-- `HostManager._hardware_events`: if the policy matcher classifies the
device into the `AUDIO` group, invoke `self.sound.update()` — with no
error suppression; otherwise do nothing. `is_match_cgroup` is the external
`self.sys_hardware.policy.is_match_cgroup`. -/
def _hardware_events (is_match_cgroup : PolicyGroup → Device → Bool)
    (device : Device) (beh : UpdateBehavior) (s : ManagerState) :
    ManagerState × Option HostError :=
  if is_match_cgroup PolicyGroup.AUDIO device then
    ext_update beh.sound_fails HostError.pulseAudio
      (fun t => { t with sound_updates := t.sound_updates + 1 }) s
  else (s, none)

/-! ## Concrete fixtures for witnesses and counterexamples -/

/-- All subsystem connections down, no interfaces. -/
def dbus_all_down : DBusManager :=
  { systemd := { is_connected := false }
    network := { is_connected := false, interfaces := [] }
    hostname := { is_connected := false }
    timedate := { is_connected := false }
    agent := { is_connected := false } }

/-- Only the service-management (systemd) connection is live. -/
def dbus_systemd_only : DBusManager :=
  { dbus_all_down with systemd := { is_connected := true } }

/-- The scenario of §8: systemd down, network up with one interface,
hostname up, timedate down, agent down. -/
def dbus_scenario : DBusManager :=
  { systemd := { is_connected := false }
    network := { is_connected := true, interfaces := ["eth0"] }
    hostname := { is_connected := true }
    timedate := { is_connected := false }
    agent := { is_connected := false } }

/-- OS detector reporting unavailable. -/
def os_down : OSManager := { available := false }

/-- All collaborator calls succeed. -/
def beh_ok : UpdateBehavior :=
  { info_fails := false, services_fails := false, network_fails := false
    agent_fails := false, sound_fails := false, apparmor_fails := false }

/-- The empty call trace. -/
def trace0 : Trace :=
  { info_updates := 0, services_updates := 0, network_updates := 0
    agent_updates := 0, sound_updates := 0, apparmor_loads := 0
    register_new := 0, register_remove := 0 }

/-- Fresh manager state: empty memo cell, no evaluations, no calls yet. -/
def state0 : ManagerState :=
  { cache := none, featureEvals := 0, trace := trace0 }

/-- Manager state holding a valid (non-empty-history) memo entry. -/
def state_cached : ManagerState :=
  { cache := some [], featureEvals := 1, trace := trace0 }

/-- A policy matcher that classifies devices named `snd0` as `AUDIO`. -/
def policy_ex (group : PolicyGroup) (device : Device) : Bool :=
  decide (group = PolicyGroup.AUDIO) && decide (device.name = "snd0")

/-- A device the `policy_ex` matcher classifies as audio. -/
def dev_audio : Device := { name := "snd0" }

/-- A device the `policy_ex` matcher does not classify as audio. -/
def dev_tty : Device := { name := "tty0" }

/-! ## Sanity checks: the two scenario examples of §8 -/

example :
    supported_features dbus_scenario os_down =
      [HostFeature.NETWORK, HostFeature.HOSTNAME] := by decide

example : supported_features dbus_all_down os_down = [] := by decide

/-! ## Helper lemmas -/

theorem and_then_ok (s : ManagerState)
    (k : ManagerState → ManagerState × Option HostError) :
    and_then (s, none) k = k s := rfl

theorem and_then_err (s : ManagerState) (e : HostError)
    (k : ManagerState → ManagerState × Option HostError) :
    and_then (s, some e) k = (s, some e) := rfl

/-! ## Claim theorems -/

/-- C2: the `NETWORK` feature is in the result of `supported_features` iff
the network connection is live and the interface sequence is non-empty; in
particular live-with-empty and down-with-non-empty both omit the flag. -/
theorem network_feature_iff (d : DBusManager) (os : OSManager) :
    HostFeature.NETWORK ∈ supported_features d os ↔
      (d.network.is_connected = true ∧ d.network.interfaces ≠ []) := by
  rcases d with ⟨⟨sc⟩, ⟨nc, ifs⟩, ⟨hc⟩, ⟨tc⟩, ⟨ac⟩⟩
  rcases os with ⟨oa⟩
  cases sc <;> cases nc <;> cases hc <;> cases tc <;> cases ac <;> cases oa <;>
    cases ifs <;> simp [supported_features]

/-- C3: `REBOOT`, `SHUTDOWN` and `SERVICES` each appear in
`supported_features` exactly when the systemd connection is live — so they
are all present or all absent, never a strict subset — and when present they
form the contiguous block `[REBOOT, SHUTDOWN, SERVICES]` at the start of the
sequence. -/
theorem systemd_features_coupled (d : DBusManager) (os : OSManager) :
    (HostFeature.REBOOT ∈ supported_features d os ↔
      d.systemd.is_connected = true) ∧
    (HostFeature.SHUTDOWN ∈ supported_features d os ↔
      d.systemd.is_connected = true) ∧
    (HostFeature.SERVICES ∈ supported_features d os ↔
      d.systemd.is_connected = true) ∧
    (d.systemd.is_connected = true →
      (supported_features d os).take 3 =
        [HostFeature.REBOOT, HostFeature.SHUTDOWN, HostFeature.SERVICES]) := by
  rcases d with ⟨⟨sc⟩, ⟨nc, ifs⟩, ⟨hc⟩, ⟨tc⟩, ⟨ac⟩⟩
  rcases os with ⟨oa⟩
  cases sc <;> cases nc <;> cases hc <;> cases tc <;> cases ac <;> cases oa <;>
    cases ifs <;> simp [supported_features]

/-- C3 witness: with the systemd connection live, the feature list indeed
starts with the contiguous block. -/
theorem systemd_features_coupled_witness :
    (supported_features dbus_systemd_only os_down).take 3 =
      [HostFeature.REBOOT, HostFeature.SHUTDOWN, HostFeature.SERVICES] :=
  (systemd_features_coupled dbus_systemd_only os_down).2.2.2 rfl

/-- C4: a second call to `supported_features` with no intervening
invalidation returns the identical list from the identical state — in
particular the predicate evaluation count does not increase — and the
`features` property is the same read. -/
theorem supported_features_memoized (d : DBusManager) (os : OSManager)
    (s : ManagerState) :
    supported_features_cached d os (supported_features_cached d os s).2 =
      supported_features_cached d os s ∧
    (supported_features_cached d os (supported_features_cached d os s).2).2.featureEvals
      = (supported_features_cached d os s).2.featureEvals ∧
    features d os s = supported_features_cached d os s := by
  rcases h : s.cache with _ | fs <;>
    simp [supported_features_cached, features, h]

/-- Success/state lemma for `reload`: the run completes without raising iff
the host-info step and every guarded step that actually runs succeed; a
completed run leaves the memo cell cleared; and the error escaping a failed
run is never the (suppressed) PulseAudio one. -/
theorem reload_ok_iff (d : DBusManager) (beh : UpdateBehavior)
    (s : ManagerState) :
    ((reload d beh s).2 = none ↔
      (beh.info_fails = false ∧
        (d.systemd.is_connected = true → beh.services_fails = false) ∧
        (d.network.is_connected = true → beh.network_fails = false) ∧
        (d.agent.is_connected = true → beh.agent_fails = false))) ∧
    ((reload d beh s).2 = none → (reload d beh s).1.cache = none) ∧
    (∀ e, (reload d beh s).2 = some e → e.isPulseAudioError = false) := by
  rcases d with ⟨⟨sc⟩, ⟨nc, ifs⟩, ⟨hc⟩, ⟨tc⟩, ⟨ac⟩⟩
  rcases beh with ⟨i, sv, nw, ag, so, ap⟩
  cases i <;> cases sv <;> cases nw <;> cases ag <;> cases so <;>
    cases sc <;> cases nc <;> cases ac <;>
      simp [reload, and_then, ext_update, cache_clear,
        HostError.isPulseAudioError]

/-- C5: after a completed `reload`, the memo cell is invalidated, so the
next `supported_features` read re-evaluates the predicates: the evaluation
count increases by one even when the recomputed set equals the old one. -/
theorem reload_invalidates_memo (d : DBusManager) (os : OSManager)
    (beh : UpdateBehavior) (s : ManagerState)
    (h : (reload d beh s).2 = none) :
    (reload d beh s).1.cache = none ∧
    (supported_features_cached d os (reload d beh s).1).2.featureEvals
      = (reload d beh s).1.featureEvals + 1 := by
  have hc := (reload_ok_iff d beh s).2.1 h
  exact ⟨hc, by simp [supported_features_cached, hc]⟩

/-- C5 witness: a concrete completed reload (from a state whose memo holds
exactly the set that will be recomputed) clears the cell and the next read
bumps the evaluation count. -/
theorem reload_invalidates_memo_witness :
    (reload dbus_all_down beh_ok state_cached).1.cache = none ∧
    (supported_features_cached dbus_all_down os_down
        (reload dbus_all_down beh_ok state_cached).1).2.featureEvals
      = (reload dbus_all_down beh_ok state_cached).1.featureEvals + 1 :=
  reload_invalidates_memo dbus_all_down os_down beh_ok state_cached (by decide)

/-- A run in which the service-list refresh fails (its subsystem-specific
error) while the systemd connection is live. -/
def beh_services_fail : UpdateBehavior :=
  { beh_ok with services_fails := true }

/-- C1 counterexample: with the systemd connection live and the service-list
refresh failing, the error escapes `reload` (it is not caught at its step),
the memo cell is left valid (not invalidated), and the subsequent sound step
never runs — refuting the claim that only step 1 may raise out of
`reload()`. -/
theorem reload_services_failure_escapes_cex :
    (reload dbus_systemd_only beh_services_fail state_cached).2 =
      some HostError.services ∧
    (reload dbus_systemd_only beh_services_fail state_cached).1.cache =
      some [] ∧
    (reload dbus_systemd_only beh_services_fail state_cached).1.trace.sound_updates
      = 0 := by decide

/-- C1 amended: `reload` completes without raising iff the host-info step
succeeds and each guarded step that runs (service list when systemd is
connected, network when connected, agent when connected) succeeds — so
failures in steps 1–4 all propagate out and abort the remaining steps; only
a sound-refresh failure is caught at its own step (the escaping error is
never the PulseAudio one), and a completed run always ends with the memo
invalidated. -/
theorem reload_propagation_policy (d : DBusManager) (beh : UpdateBehavior)
    (s : ManagerState) :
    ((reload d beh s).2 = none ↔
      (beh.info_fails = false ∧
        (d.systemd.is_connected = true → beh.services_fails = false) ∧
        (d.network.is_connected = true → beh.network_fails = false) ∧
        (d.agent.is_connected = true → beh.agent_fails = false))) ∧
    ((reload d beh s).2 = none → (reload d beh s).1.cache = none) ∧
    (∀ e, (reload d beh s).2 = some e → e.isPulseAudioError = false) :=
  reload_ok_iff d beh s

/-- C1 amended witness: a concrete run with every step succeeding completes
and invalidates the memo. -/
theorem reload_propagation_policy_witness :
    (reload dbus_systemd_only beh_ok state_cached).1.cache = none :=
  (reload_propagation_policy dbus_systemd_only beh_ok state_cached).2.1
    (by decide)

/-- C6: a subsystem whose connection is down has its refresh skipped during
`reload`: its update-invocation count does not change, whatever the other
probes and failure behaviours are. -/
theorem reload_skips_absent (d : DBusManager) (beh : UpdateBehavior)
    (s : ManagerState) :
    (d.systemd.is_connected = false →
      (reload d beh s).1.trace.services_updates = s.trace.services_updates) ∧
    (d.network.is_connected = false →
      (reload d beh s).1.trace.network_updates = s.trace.network_updates) ∧
    (d.agent.is_connected = false →
      (reload d beh s).1.trace.agent_updates = s.trace.agent_updates) := by
  rcases d with ⟨⟨sc⟩, ⟨nc, ifs⟩, ⟨hc⟩, ⟨tc⟩, ⟨ac⟩⟩
  rcases beh with ⟨i, sv, nw, ag, so, ap⟩
  cases i <;> cases sv <;> cases nw <;> cases ag <;> cases so <;>
    cases sc <;> cases nc <;> cases ac <;>
      simp [reload, and_then, ext_update, cache_clear,
        HostError.isPulseAudioError]

/-- C6 witness: with every connection down, none of the three guarded
refreshes is invoked by a reload. -/
theorem reload_skips_absent_witness :
    (reload dbus_all_down beh_ok state0).1.trace.services_updates =
      state0.trace.services_updates ∧
    (reload dbus_all_down beh_ok state0).1.trace.network_updates =
      state0.trace.network_updates ∧
    (reload dbus_all_down beh_ok state0).1.trace.agent_updates =
      state0.trace.agent_updates :=
  ⟨(reload_skips_absent dbus_all_down beh_ok state0).1 rfl,
   (reload_skips_absent dbus_all_down beh_ok state0).2.1 rfl,
   (reload_skips_absent dbus_all_down beh_ok state0).2.2 rfl⟩

/-- C7: when every step before the sound refresh succeeds, a failing sound
refresh is invisible outside `reload`: the run completes without raising,
the memo is still invalidated, the sound step was indeed attempted, and the
whole call trace equals that of the run where the sound refresh succeeds. -/
theorem reload_sound_fault_isolated (d : DBusManager) (beh : UpdateBehavior)
    (s : ManagerState)
    (h1 : beh.info_fails = false)
    (h2 : d.systemd.is_connected = true → beh.services_fails = false)
    (h3 : d.network.is_connected = true → beh.network_fails = false)
    (h4 : d.agent.is_connected = true → beh.agent_fails = false) :
    (reload d { beh with sound_fails := true } s).2 = none ∧
    (reload d { beh with sound_fails := true } s).1.cache = none ∧
    (reload d { beh with sound_fails := true } s).1.trace.sound_updates
      = s.trace.sound_updates + 1 ∧
    (reload d { beh with sound_fails := true } s).1.trace
      = (reload d { beh with sound_fails := false } s).1.trace := by
  rcases d with ⟨⟨sc⟩, ⟨nc, ifs⟩, ⟨hc⟩, ⟨tc⟩, ⟨ac⟩⟩
  rcases beh with ⟨i, sv, nw, ag, so, ap⟩
  subst h1
  cases sc <;> cases nc <;> cases ac <;>
    simp_all [reload, and_then, ext_update, cache_clear,
      HostError.isPulseAudioError]

/-- C7 witness: a concrete reload with a failing sound refresh (all other
steps fine) completes, invalidates the memo and attempted the sound step. -/
theorem reload_sound_fault_isolated_witness :
    (reload dbus_all_down { beh_ok with sound_fails := true } state0).2 =
      none ∧
    (reload dbus_all_down { beh_ok with sound_fails := true } state0).1.cache
      = none ∧
    (reload dbus_all_down { beh_ok with sound_fails := true } state0).1.trace.sound_updates
      = state0.trace.sound_updates + 1 ∧
    (reload dbus_all_down { beh_ok with sound_fails := true } state0).1.trace
      = (reload dbus_all_down { beh_ok with sound_fails := false } state0).1.trace :=
  reload_sound_fault_isolated dbus_all_down beh_ok state0 (by decide)
    (by decide) (by decide) (by decide)

/-- In the model every collaborator error is a domain (`HassioError`)
error. -/
theorem isHassioError_eq_true (e : HostError) : e.isHassioError = true := by
  cases e <;> rfl

/-- `load` always continues past the suppressed `reload` call, whether that
call completed or raised. -/
theorem load_eq (d : DBusManager) (beh : UpdateBehavior) (s : ManagerState) :
    load d beh s = load_after_reload beh (reload d beh s).1 := by
  unfold load
  rcases h : reload d beh s with ⟨s1, e⟩
  cases e with
  | none => rfl
  | some err => simp [isHassioError_eq_true]

/-- The tail of `load` registers both handlers, attempts the AppArmor load,
and never raises. -/
theorem load_after_reload_spec (beh : UpdateBehavior) (s : ManagerState) :
    (load_after_reload beh s).2 = none ∧
    (load_after_reload beh s).1.trace.register_new =
      s.trace.register_new + 1 ∧
    (load_after_reload beh s).1.trace.register_remove =
      s.trace.register_remove + 1 ∧
    (load_after_reload beh s).1.trace.apparmor_loads =
      s.trace.apparmor_loads + 1 := by
  rcases beh with ⟨i, sv, nw, ag, so, ap⟩
  cases ap <;>
    simp [load_after_reload, register_hardware_events, ext_update,
      HostError.isHassioError]

/-- `reload` never touches the registration counters or the AppArmor
counter. -/
theorem reload_frame (d : DBusManager) (beh : UpdateBehavior)
    (s : ManagerState) :
    (reload d beh s).1.trace.register_new = s.trace.register_new ∧
    (reload d beh s).1.trace.register_remove = s.trace.register_remove ∧
    (reload d beh s).1.trace.apparmor_loads = s.trace.apparmor_loads := by
  rcases d with ⟨⟨sc⟩, ⟨nc, ifs⟩, ⟨hc⟩, ⟨tc⟩, ⟨ac⟩⟩
  rcases beh with ⟨i, sv, nw, ag, so, ap⟩
  cases i <;> cases sv <;> cases nw <;> cases ag <;> cases so <;>
    cases sc <;> cases nc <;> cases ac <;>
      simp [reload, and_then, ext_update, cache_clear,
        HostError.isPulseAudioError]

/-- C8: `load` never raises — any error of its initial `reload` call
(including a host-info failure) and any error of the AppArmor load are
swallowed — and it always registers both hardware event handlers and always
attempts the AppArmor load, whatever failed. -/
theorem load_is_best_effort (d : DBusManager) (beh : UpdateBehavior)
    (s : ManagerState) :
    (load d beh s).2 = none ∧
    (load d beh s).1.trace.register_new = s.trace.register_new + 1 ∧
    (load d beh s).1.trace.register_remove = s.trace.register_remove + 1 ∧
    (load d beh s).1.trace.apparmor_loads = s.trace.apparmor_loads + 1 := by
  have h2 := load_after_reload_spec beh (reload d beh s).1
  have h3 := reload_frame d beh s
  rw [load_eq]
  exact ⟨h2.1, by rw [h2.2.1, h3.1], by rw [h2.2.2.1, h3.2.1],
    by rw [h2.2.2.2, h3.2.2]⟩

/-- C9: a hardware event matching the `AUDIO` policy group triggers exactly
one sound refresh — the memo cell, the evaluation counter and every other
collaborator counter are untouched — and a non-matching event does nothing
at all. -/
theorem hardware_events_scoped (pol : PolicyGroup → Device → Bool)
    (dev : Device) (beh : UpdateBehavior) (s : ManagerState) :
    (pol PolicyGroup.AUDIO dev = true →
      (_hardware_events pol dev beh s).1.trace.sound_updates =
        s.trace.sound_updates + 1 ∧
      (_hardware_events pol dev beh s).1.cache = s.cache ∧
      (_hardware_events pol dev beh s).1.featureEvals = s.featureEvals ∧
      (_hardware_events pol dev beh s).1.trace.info_updates =
        s.trace.info_updates ∧
      (_hardware_events pol dev beh s).1.trace.services_updates =
        s.trace.services_updates ∧
      (_hardware_events pol dev beh s).1.trace.network_updates =
        s.trace.network_updates ∧
      (_hardware_events pol dev beh s).1.trace.agent_updates =
        s.trace.agent_updates ∧
      (_hardware_events pol dev beh s).1.trace.apparmor_loads =
        s.trace.apparmor_loads) ∧
    (pol PolicyGroup.AUDIO dev = false →
      _hardware_events pol dev beh s = (s, none)) := by
  constructor <;> intro h <;> simp [_hardware_events, ext_update, h]

/-- C9 witness: an audio-classified device bumps exactly the sound counter
and leaves the memo cell as it was; a non-matching device changes nothing. -/
theorem hardware_events_scoped_witness :
    ((_hardware_events policy_ex dev_audio beh_ok state_cached).1.trace.sound_updates
        = state_cached.trace.sound_updates + 1 ∧
      (_hardware_events policy_ex dev_audio beh_ok state_cached).1.cache =
        state_cached.cache) ∧
    _hardware_events policy_ex dev_tty beh_ok state_cached =
      (state_cached, none) :=
  ⟨⟨((hardware_events_scoped policy_ex dev_audio beh_ok state_cached).1
        (by decide)).1,
    ((hardware_events_scoped policy_ex dev_audio beh_ok state_cached).1
        (by decide)).2.1⟩,
   (hardware_events_scoped policy_ex dev_tty beh_ok state_cached).2
      (by decide)⟩

/-- C10: the hardware-event handler has no suppression around the sound
refresh: for an audio-matching device whose sound refresh raises, the
PulseAudio error escapes the handler — while `reload` (which wraps the same
call in `suppress(PulseAudioError)`) never lets that error escape. -/
theorem hardware_events_error_propagates (pol : PolicyGroup → Device → Bool)
    (dev : Device) (beh : UpdateBehavior) (s : ManagerState)
    (d : DBusManager) (h : pol PolicyGroup.AUDIO dev = true)
    (hf : beh.sound_fails = true) :
    (_hardware_events pol dev beh s).2 = some HostError.pulseAudio ∧
    (reload d beh s).2 ≠ some HostError.pulseAudio := by
  refine ⟨by simp [_hardware_events, ext_update, h, hf], fun hc => ?_⟩
  have := (reload_ok_iff d beh s).2.2 HostError.pulseAudio hc
  simp [HostError.isPulseAudioError] at this

/-- C10 witness: a concrete audio-matching event with a failing sound
refresh raises out of the handler, while the same failure behaviour never
lets the PulseAudio error out of `reload`. -/
theorem hardware_events_error_propagates_witness :
    (_hardware_events policy_ex dev_audio
        { beh_ok with sound_fails := true } state0).2 =
      some HostError.pulseAudio ∧
    (reload dbus_all_down { beh_ok with sound_fails := true } state0).2 ≠
      some HostError.pulseAudio :=
  hardware_events_error_propagates policy_ex dev_audio
    { beh_ok with sound_fails := true } state0 dbus_all_down
    (by decide) (by decide)

end Supervisor
